import Mathlib

/-!
Shallow embedding of `src/agent.py` (a shopping-assistant dispatcher that maps
a hosted language model\x27s structured function-call output to typed local
actions) and proofs about the claims of its specification.

External collaborators (the OpenAI transport, the stdlib JSON decoder, the
pydantic field validators and the simulated search backend) are modelled as
explicit parameters or as small total functions mirroring their documented
behaviour; everything else is translated line by line from `agent.py`.
-/

/-- A role-tagged chat message, the shape of entries of `conversation_history`
and of the message list sent to the model (`agent.py` uses plain dicts with
`role` and `content` keys). -/
structure ChatMsg where
  role : String
  content : String
deriving DecidableEq, Repr

/-- The `function` member of a tool call in the model response:
`tool_call.function.name` and `tool_call.function.arguments` (a raw string,
possibly empty or malformed). -/
structure FunctionCall where
  name : String
  arguments : String
deriving DecidableEq, Repr

/-- One tool call of the model response.  The code guards with
`if not tool_call.function`, so the member is modelled as optional. -/
structure ToolCall where
  function : Option FunctionCall
deriving DecidableEq, Repr

/-- The message of a response choice; `tool_calls` is `None` or a list
(the code guards with `if ... not response.choices[0].message.tool_calls`,
which is also true for an empty list). -/
structure RespMessage where
  tool_calls : Option (List ToolCall)
deriving DecidableEq, Repr

/-- One choice of the model response. -/
structure Choice where
  message : RespMessage
deriving DecidableEq, Repr

/-- The model response: a list of choices (possibly empty, the code guards
with `if not response.choices`). -/
structure OracleResponse where
  choices : List Choice
deriving DecidableEq, Repr

/-- A JSON value, the result type of the stdlib decode `json.loads` applied
to `tool_call.function.arguments`. -/
inductive JsonValue where
  | null : JsonValue
  | bool (b : Bool) : JsonValue
  | num (n : Int) : JsonValue
  | str (s : String) : JsonValue
  | arr (elems : List JsonValue) : JsonValue
  | obj (fields : List (String × JsonValue)) : JsonValue

/-- A raised Python exception, as observed by the `except` handlers of the
code: a constructor per relevant exception class, carrying the text that
`str(e)` would produce. -/
inductive PyErr where
  | validationError (msg : String) : PyErr
  | typeError (msg : String) : PyErr
  | apiError (msg : String) : PyErr
  | other (msg : String) : PyErr
deriving DecidableEq, Repr

/-- The text `str(e)` interpolated into the apology reply of `run`. -/
def PyErr.toStr : PyErr → String
  | .validationError m => m
  | .typeError m => m
  | .apiError m => m
  | .other m => m

/-- The `Search` action (`class Search(BaseAction)`): `keywords: List[str]`. -/
structure Search where
  keywords : List String
deriving DecidableEq, Repr

/-- The `GetProductDetails` action: `product_id: str`. -/
structure GetProductDetails where
  product_id : String
deriving DecidableEq, Repr

/-- The `Clarify` action: `question: str`. -/
structure Clarify where
  question : String
deriving DecidableEq, Repr

/-- The closed union of actions `decide_next_action` can return
(`Union[Search, GetProductDetails, Clarify]`). -/
inductive BaseAction where
  | search (a : Search) : BaseAction
  | getProductDetails (a : GetProductDetails) : BaseAction
  | clarify (a : Clarify) : BaseAction
deriving DecidableEq, Repr

/-- A search result row as returned by `SearchClient.search`: a dict with
`id` and `name`. -/
structure ProductRow where
  id : String
  name : String
deriving DecidableEq, Repr

/-- A product-details row as returned by `SearchClient.get_product_details`:
a dict with `id`, `name`, `price` and `description`.  The price is kept as
its decimal text since only its printed form is observable. -/
structure ProductDetailsRow where
  id : String
  name : String
  price : String
  description : String
deriving DecidableEq, Repr

/-- Behaviour of the external search/details collaborator (`SearchClient`),
modelled as injectable functions that may raise.  `get_product_details`
returns `none` for a falsy (not found) result, per the `if not product`
guard of the code. -/
structure SearchClient where
  search : List String → Except PyErr (List ProductRow)
  get_product_details : String → Except PyErr (Option ProductDetailsRow)

/-- The stubbed collaborator of `agent.py`: `search` always returns the two
hardcoded rows, `get_product_details` always returns a full dict. -/
def defaultSearchClient : SearchClient where
  search := fun _ =>
    Except.ok [⟨"p1", "Product 1"⟩, ⟨"p2", "Product 2"⟩]
  get_product_details := fun product_id =>
    Except.ok (some ⟨product_id, "Product " ++ product_id, "19.99", "A great product."⟩)

/-- Counts of calls made to the external collaborators during one turn:
the model transport, `SearchClient.search` and
`SearchClient.get_product_details`. -/
structure Trace where
  oracleCalls : Nat
  searchCalls : Nat
  detailsCalls : Nat
deriving DecidableEq, Repr

/-- No external call. -/
def Trace.zero : Trace := ⟨0, 0, 0⟩

/-- Pointwise sum of call counts. -/
def Trace.add (t u : Trace) : Trace :=
  ⟨t.oracleCalls + u.oracleCalls, t.searchCalls + u.searchCalls,
   t.detailsCalls + u.detailsCalls⟩

/-- Python `", ".join` on an already-formatted list of strings. -/
def joinSep (sep : String) : List String → String
  | [] => ""
  | [x] => x
  | x :: y :: ys => x ++ sep ++ joinSep sep (y :: ys)

/-- `Search.execute`: queries the search collaborator, answers the fixed
apology on an empty result list, otherwise formats every row as
`"<name> (ID: <id>)"`, joins with `", "` and adds the introductory phrase. -/
def Search.execute (client : SearchClient) (a : Search) :
    Trace × Except PyErr String :=
  (⟨0, 1, 0⟩,
    match client.search a.keywords with
    | .error e => .error e
    | .ok results =>
      if results.isEmpty then
        .ok "Sorry I couldn\x27t find any products for your search."
      else
        .ok ("Here are the products I found: " ++
          joinSep ", " (results.map (fun p => p.name ++ " (ID: " ++ p.id ++ ")"))))

/-- `GetProductDetails.execute`: queries the details collaborator, answers a
not-found message for a falsy result, otherwise formats name, price and
description. -/
def GetProductDetails.execute (client : SearchClient) (a : GetProductDetails) :
    Trace × Except PyErr String :=
  (⟨0, 0, 1⟩,
    match client.get_product_details a.product_id with
    | .error e => .error e
    | .ok none => .ok ("Product " ++ a.product_id ++ " not found")
    | .ok (some p) =>
      .ok (p.name ++ ": price: $" ++ p.price ++ " - " ++ p.description))

/-- `Clarify.execute`: returns the question text verbatim and makes no
collaborator call. -/
def Clarify.execute (a : Clarify) : Trace × Except PyErr String :=
  (Trace.zero, .ok a.question)

/-- Dispatch of `action.execute()` over the closed union. -/
def BaseAction.execute (client : SearchClient) : BaseAction → Trace × Except PyErr String
  | .search a => a.execute client
  | .getProductDetails a => a.execute client
  | .clarify a => a.execute

/-- The `SYSTEM_PROMPT` literal of `agent.py`. -/
def SYSTEM_PROMPT : String :=
  "You are a shopping assistant. Use these functions:\n1. search_products: When user wants to find products (e.g., \"show me shirts\")\n2. get_product_details: When user asks about a specific product ID (e.g., \"tell me about product p1\")\n3. clarify_request: When user\x27s request is unclear"

/-- The message list `decide_next_action` assembles for the model call:
a fresh list holding the system prompt, then each history entry whose role
is `user`, `assistant` or `system` (others are dropped), then the current
user message appended last. -/
def buildMessages (user_message : String) (conversation_history : List ChatMsg) :
    List ChatMsg :=
  let messages : List ChatMsg := [⟨"system", SYSTEM_PROMPT⟩]
  let messages := conversation_history.foldl
    (fun acc msg =>
      if msg.role = "user" then acc ++ [⟨"user", msg.content⟩]
      else if msg.role = "assistant" then acc ++ [⟨"assistant", msg.content⟩]
      else if msg.role = "system" then acc ++ [⟨"system", msg.content⟩]
      else acc)
    messages
  messages ++ [⟨"user", user_message⟩]

/-- Field lookup in a decoded JSON object; the Python dict produced by
`json.loads` keeps the last binding of a duplicated key, hence the lookup
on the reversed field list. -/
def lookupField (fields : List (String × JsonValue)) (k : String) : Option JsonValue :=
  (fields.reverse.find? (fun p => p.fst = k)).map Prod.snd

/-- Pydantic validation of a `str` field: anything but a JSON string is
rejected with a `ValidationError` (pydantic v2 performs no int-to-str or
similar coercion for `str`). -/
def asStr (field : String) : JsonValue → Except PyErr String
  | .str s => .ok s
  | _ => .error (.validationError ("Input should be a valid string: " ++ field))

/-- Pydantic validation of a `List[str]` field: a JSON array of strings;
anything else (including a bare string) is rejected. -/
def asStrList (field : String) : JsonValue → Except PyErr (List String)
  | .arr elems => elems.mapM (asStr field)
  | _ => .error (.validationError ("Input should be a valid list: " ++ field))

/-- `Search(**function_args)`: keyword expansion of the decoded arguments
into the pydantic model.  A non-object payload fails keyword expansion with
a `TypeError`; a missing `keywords` field or a wrongly-typed one raises a
`ValidationError`.  Extra fields are ignored (pydantic default). -/
def constructSearch (args : JsonValue) : Except PyErr Search :=
  match args with
  | .obj fields =>
    match lookupField fields "keywords" with
    | none => .error (.validationError "Field required: keywords")
    | some v => do
      let ks ← asStrList "keywords" v
      return ⟨ks⟩
  | _ => .error (.typeError "arguments must be a mapping")

/-- `GetProductDetails(**function_args)`, analogous to `constructSearch`. -/
def constructGetProductDetails (args : JsonValue) : Except PyErr GetProductDetails :=
  match args with
  | .obj fields =>
    match lookupField fields "product_id" with
    | none => .error (.validationError "Field required: product_id")
    | some v => do
      let s ← asStr "product_id" v
      return ⟨s⟩
  | _ => .error (.typeError "arguments must be a mapping")

/-- `Clarify(**function_args)`, analogous to `constructSearch`. -/
def constructClarify (args : JsonValue) : Except PyErr Clarify :=
  match args with
  | .obj fields =>
    match lookupField fields "question" with
    | none => .error (.validationError "Field required: question")
    | some v => do
      let s ← asStr "question" v
      return ⟨s⟩
  | _ => .error (.typeError "arguments must be a mapping")

/-- Behaviour of the model transport
(`self.client.chat.completions.create`), injectable: a function from the
message list to either a raised exception or a response. -/
def Oracle : Type := List ChatMsg → Except PyErr OracleResponse

/-- Behaviour of the stdlib JSON decoder `json.loads` on argument strings:
`none` models a raised `json.JSONDecodeError`. -/
def JsonLoads : Type := String → Option JsonValue

/-- `ShoppingAgent.decide_next_action`, lines 128-204: build the message
list, call the model once, then map the response to at most one typed
action.  The first component counts the single transport call; the second
is the returned value or the exception escaping the method (pydantic
validation errors are not caught here). -/
def decide_next_action (loads : JsonLoads) (oracle : Oracle)
    (user_message : String) (conversation_history : List ChatMsg) :
    Trace × Except PyErr (Option BaseAction) :=
  let messages := buildMessages user_message conversation_history
  (⟨1, 0, 0⟩,
    match oracle messages with
    | .error e => .error e
    | .ok response =>
      match response.choices with
      | [] => .ok none
      | choice0 :: _ =>
        match choice0.message.tool_calls with
        | none => .ok none
        | some [] => .ok none
        | some (tool_call :: _) =>
          match tool_call.function with
          | none => .ok none
          | some f =>
            if f.arguments = "" then .ok none
            else
              match loads f.arguments with
              | none => .ok none
              | some function_args =>
                if f.name = "search_products" then
                  match constructSearch function_args with
                  | .error e => .error e
                  | .ok a => .ok (some (BaseAction.search a))
                else if f.name = "get_product_details" then
                  match constructGetProductDetails function_args with
                  | .error e => .error e
                  | .ok a => .ok (some (BaseAction.getProductDetails a))
                else if f.name = "clarify_request" then
                  match constructClarify function_args with
                  | .error e => .error e
                  | .ok a => .ok (some (BaseAction.clarify a))
                else .ok none)

/-- The OpenAI client object as configured in `__init__`: a base URL and
the credential passed to the constructor. -/
structure OpenAIClient where
  base_url : String
  api_key : String
deriving DecidableEq, Repr

/-- The agent: its configured transport client and its safety predicate.
The predicate is the pluggable capability the spec demands; the stub of
`agent.py` is the default value `fun _ => false`. -/
structure ShoppingAgent where
  client : OpenAIClient
  is_intent_malicious : String → Bool := fun _ => false

/-- `ShoppingAgent.__init__`: reads `OPENROUTER_API_KEY` from the
environment into a local, then constructs the OpenAI client passing the
string literal `"api_key"` — not the local — as the credential. -/
def mkShoppingAgent (env : String → Option String) : ShoppingAgent :=
  let _api_key := env "OPENROUTER_API_KEY"
  { client := { base_url := "https://openrouter.ai/api/v1", api_key := "api_key" } }

/-- Observable outcome of one `run` call: the returned string (or an
exception escaping `run`), the contents of the caller\x27s
`conversation_history` list after the call, and the collaborator call
counts of the turn. -/
structure RunResult where
  reply : Except PyErr String
  history : List ChatMsg
  trace : Trace

/-- `ShoppingAgent.run`, lines 116-126: safety gate first (outside the
`try`), then decide and execute inside a `try` whose handler converts any
exception into the apology string.  `run` never appends to the caller\x27s
history list; the `history` component records its contents when `run`
returns. -/
def ShoppingAgent.run (agent : ShoppingAgent) (loads : JsonLoads) (oracle : Oracle)
    (client : SearchClient) (user_message : String)
    (conversation_history : List ChatMsg) : RunResult :=
  if agent.is_intent_malicious user_message then
    { reply := .ok "Sorry! I cannot process this request.",
      history := conversation_history, trace := Trace.zero }
  else
    match decide_next_action loads oracle user_message conversation_history with
    | (t1, .error e) =>
      { reply := .ok ("Sorry, I encountered an error: " ++ e.toStr),
        history := conversation_history, trace := t1 }
    | (t1, .ok none) =>
      { reply := .ok "I\x27m not sure how to respond to that.",
        history := conversation_history, trace := t1 }
    | (t1, .ok (some action)) =>
      match action.execute client with
      | (t2, .error e) =>
        { reply := .ok ("Sorry, I encountered an error: " ++ e.toStr),
          history := conversation_history, trace := t1.add t2 }
      | (t2, .ok s) =>
        { reply := .ok s, history := conversation_history, trace := t1.add t2 }

/-- One iteration of the `main` loop on a non-"bye" input, lines 223-231:
append the user message to `conversation_history`, call `run` on that same
list, then append the assistant reply.  Returns the history contents after
the turn and the printed reply. -/
def mainTurn (agent : ShoppingAgent) (loads : JsonLoads) (oracle : Oracle)
    (client : SearchClient) (conversation_history : List ChatMsg)
    (user_input : String) : Except PyErr (List ChatMsg × String) :=
  let conversation_history := conversation_history ++ [⟨"user", user_input⟩]
  let r := agent.run loads oracle client user_input conversation_history
  match r.reply with
  | .error e => .error e
  | .ok response => .ok (r.history ++ [⟨"assistant", response⟩], response)

/-- The message list `decide_next_action` sends to the model during a
`mainTurn`: since `main` appends the current input to the stored history
before calling `run`, this is `buildMessages` applied to the input and the
extended history. -/
def mainTurnRequestMessages (conversation_history : List ChatMsg)
    (user_input : String) : List ChatMsg :=
  buildMessages user_input (conversation_history ++ [⟨"user", user_input⟩])

/-- Test fixture: a model response with a single choice carrying the given
`tool_calls` member. -/
def respWith (tcs : Option (List ToolCall)) : OracleResponse :=
  ⟨[⟨⟨tcs⟩⟩]⟩

/-- Test fixture: a decoder that decodes the argument string
`"argsEmptyObj"` to the empty JSON object and reports a decode failure on
everything else. -/
def loadsFixture : JsonLoads :=
  fun s => if s = "argsEmptyObj" then some (JsonValue.obj []) else none

/-- Test fixture: a collaborator whose search returns zero rows and whose
details lookup finds nothing. -/
def emptySearchClient : SearchClient where
  search := fun _ => Except.ok []
  get_product_details := fun _ => Except.ok none

/-- Test fixture: an environment defining only `OPENROUTER_API_KEY`. -/
def envFixture : String → Option String :=
  fun k => if k = "OPENROUTER_API_KEY" then some "sk-or-test-123" else none

/-- Test fixture: an agent whose pluggable safety predicate flags every
message. -/
def flaggingAgent : ShoppingAgent where
  client := ⟨"https://openrouter.ai/api/v1", "api_key"⟩
  is_intent_malicious := fun _ => true

/-- Concatenating strings concatenates their character lists. -/
theorem string_toList_append (a b : String) :
    (a ++ b).toList = a.toList ++ b.toList := by
  cases a
  cases b
  rfl

/-- An infix of a list is an infix of any left extension of it. -/
theorem contains_extend_left {a b : List Char} (c : List Char) (h : a <:+: b) :
    a <:+: c ++ b := by
  obtain ⟨s, t, he⟩ := h
  exact ⟨c ++ s, t, by simp [← he, List.append_assoc]⟩

/-- A list is an infix of itself followed by anything. -/
theorem contains_of_append_right (a r : List Char) : a <:+: a ++ r :=
  ⟨[], r, by simp⟩

/-- Every element of the joined list occurs inside the `joinSep` result. -/
theorem mem_joinSep_contains (sep : String) :
    ∀ (l : List String) (x : String), x ∈ l →
      x.toList <:+: (joinSep sep l).toList := by
  intro l
  induction l with
  | nil =>
    intro x hx
    cases hx
  | cons a tail ih =>
    intro x hx
    cases tail with
    | nil =>
      have hxa : x = a := by simpa using hx
      subst hxa
      simp [joinSep]
    | cons b ys =>
      have hj : joinSep sep (a :: b :: ys) = a ++ sep ++ joinSep sep (b :: ys) := rfl
      rcases List.mem_cons.mp hx with hxa | hxtail
      · subst hxa
        rw [hj, string_toList_append, string_toList_append, List.append_assoc]
        exact contains_of_append_right _ _
      · rw [hj, string_toList_append]
        exact contains_extend_left _ (ih x hxtail)

/-- `mainTurn` consults the model only on `mainTurnRequestMessages`: two
transports agreeing on that one message list make the turn
indistinguishable. -/
theorem mainTurn_oracle_request (agent : ShoppingAgent) (loads : JsonLoads)
    (client : SearchClient) (conversation_history : List ChatMsg)
    (user_input : String) (o1 o2 : Oracle)
    (h : o1 (mainTurnRequestMessages conversation_history user_input) =
      o2 (mainTurnRequestMessages conversation_history user_input)) :
    mainTurn agent loads o1 client conversation_history user_input =
      mainTurn agent loads o2 client conversation_history user_input := by
  simp only [mainTurnRequestMessages] at h
  simp only [mainTurn, ShoppingAgent.run, decide_next_action, h]

/-- C1 (counterexample): a response naming `search_products` with an
argument payload that decodes to the empty JSON object (missing the
required `keywords` field) makes `decide_next_action` raise a pydantic
`ValidationError`; it does not return `None`. -/
theorem decide_invalid_args_counterexample :
    (decide_next_action loadsFixture
      (fun _ => Except.ok (respWith (some [⟨some ⟨"search_products", "argsEmptyObj"⟩⟩])))
      "find shirts" []).2 =
      Except.error (PyErr.validationError "Field required: keywords") ∧
    (decide_next_action loadsFixture
      (fun _ => Except.ok (respWith (some [⟨some ⟨"search_products", "argsEmptyObj"⟩⟩])))
      "find shirts" []).2 ≠ Except.ok none := by
  refine ⟨rfl, ?_⟩
  intro hcontra
  exact Except.noConfusion (rfl.trans hcontra :
    Except.error (PyErr.validationError "Field required: keywords") =
      (Except.ok none : Except PyErr (Option BaseAction)))

/-- C1 (amended): when the named action is one of the three known variants
and the decoded arguments fail that variant\x27s pydantic validation, the
validation exception propagates out of `decide_next_action` (and is only
caught later, at the `run` boundary); `None` is not returned. -/
theorem decide_invalid_args_raises (loads : JsonLoads) (u : String)
    (hist : List ChatMsg) (f : FunctionCall) (rest : List ToolCall)
    (v : JsonValue) (e : PyErr) (h1 : f.arguments ≠ "")
    (h2 : loads f.arguments = some v) :
    (f.name = "search_products" → constructSearch v = Except.error e →
      (decide_next_action loads
        (fun _ => Except.ok (respWith (some (⟨some f⟩ :: rest)))) u hist).2 =
        Except.error e) ∧
    (f.name = "get_product_details" → constructGetProductDetails v = Except.error e →
      (decide_next_action loads
        (fun _ => Except.ok (respWith (some (⟨some f⟩ :: rest)))) u hist).2 =
        Except.error e) ∧
    (f.name = "clarify_request" → constructClarify v = Except.error e →
      (decide_next_action loads
        (fun _ => Except.ok (respWith (some (⟨some f⟩ :: rest)))) u hist).2 =
        Except.error e) := by
  refine ⟨?_, ?_, ?_⟩ <;> intro hn hc <;>
    simp only [decide_next_action, respWith] <;>
    rw [if_neg h1, h2, hn] <;>
    simp [hc]

/-- C1 (witness): the amended theorem applied at the counterexample input. -/
theorem decide_invalid_args_witness :
    (decide_next_action loadsFixture
      (fun _ => Except.ok (respWith (some (⟨some ⟨"search_products", "argsEmptyObj"⟩⟩ :: []))))
      "find shirts" []).2 =
      Except.error (PyErr.validationError "Field required: keywords") :=
  (decide_invalid_args_raises loadsFixture "find shirts" []
    ⟨"search_products", "argsEmptyObj"⟩ [] (JsonValue.obj [])
    (PyErr.validationError "Field required: keywords")
    (by decide) rfl).1 rfl rfl

/-- C2: for every safety predicate, decoder, transport and collaborator
behaviour (including any raised exception while deciding or executing) and
every message and history, `run` returns a string: its reply is always
`Except.ok`, never a propagated exception. -/
theorem run_always_returns_ok (agent : ShoppingAgent) (loads : JsonLoads)
    (oracle : Oracle) (client : SearchClient) (user_message : String)
    (conversation_history : List ChatMsg) :
    ∃ s, (agent.run loads oracle client user_message conversation_history).reply =
      Except.ok s := by
  unfold ShoppingAgent.run
  split
  · exact ⟨_, rfl⟩
  · split
    · exact ⟨_, rfl⟩
    · exact ⟨_, rfl⟩
    · split
      · exact ⟨_, rfl⟩
      · exact ⟨_, rfl⟩

/-- C3: `__init__` reads the configured credential but constructs the
transport client with the hardcoded literal `"api_key"`; with
`OPENROUTER_API_KEY` set to `"sk-or-test-123"`, the credential actually
used differs from the configured one. -/
theorem init_credential_bug :
    envFixture "OPENROUTER_API_KEY" = some "sk-or-test-123" ∧
    (mkShoppingAgent envFixture).client.api_key = "api_key" ∧
    (mkShoppingAgent envFixture).client.api_key ≠ "sk-or-test-123" := by
  refine ⟨rfl, rfl, ?_⟩
  decide

/-- C4: during a `main`-loop turn the stored history already contains the
current user message (line 224 appends it before calling `run`), and
`decide_next_action` appends it again, so the oracle request for input
`"hello"` on empty prior history carries the current user message twice —
as its last two entries — not exactly once. -/
theorem main_turn_duplicate_message_bug :
    mainTurnRequestMessages [] "hello" =
      [⟨"system", SYSTEM_PROMPT⟩, ⟨"user", "hello"⟩, ⟨"user", "hello"⟩] ∧
    (mainTurnRequestMessages [] "hello").count ⟨"user", "hello"⟩ = 2 := by
  exact ⟨rfl, rfl⟩

/-- C5 (counterexample): with a collaborator returning zero rows, `Search`
executes to the fixed string "Sorry I couldn\x27t find any products for
your search.", which does not contain the text
"no products found for your search" asserted by the claim. -/
theorem search_apology_counterexample :
    (Search.execute emptySearchClient ⟨["shirt"]⟩).2 =
      Except.ok "Sorry I couldn\x27t find any products for your search." ∧
    ¬ ("no products found for your search".toList <:+:
      "Sorry I couldn\x27t find any products for your search.".toList) := by
  refine ⟨rfl, ?_⟩
  decide

/-- C5 (amended): with zero rows the result is the fixed apology string
"Sorry I couldn\x27t find any products for your search."; with N>0 rows it
is the introductory phrase followed by all `"<name> (ID: <id>)"` pairs
joined by `", "`, and every pair occurs in the result. -/
theorem search_execute_formats (client : SearchClient) (keywords : List String)
    (results : List ProductRow) (h : client.search keywords = Except.ok results) :
    (results.isEmpty = true →
      (Search.execute client ⟨keywords⟩).2 =
        Except.ok "Sorry I couldn\x27t find any products for your search.") ∧
    (results.isEmpty = false →
      (Search.execute client ⟨keywords⟩).2 =
        Except.ok ("Here are the products I found: " ++
          joinSep ", " (results.map (fun p => p.name ++ " (ID: " ++ p.id ++ ")"))) ∧
      ∀ p ∈ results,
        (p.name ++ " (ID: " ++ p.id ++ ")").toList <:+:
          ("Here are the products I found: " ++
            joinSep ", " (results.map (fun p => p.name ++ " (ID: " ++ p.id ++ ")"))).toList) := by
  constructor
  · intro he
    simp only [Search.execute, h, he, if_true]
  · intro hne
    constructor
    · simp only [Search.execute, h, hne, Bool.false_eq_true, if_false]
    · intro p hp
      rw [string_toList_append]
      exact contains_extend_left _
        (mem_joinSep_contains ", " _ _ (List.mem_map_of_mem _ hp))

/-- C5 (witness): the amended theorem applied to a collaborator with zero
rows and to the stub collaborator with its two hardcoded rows. -/
theorem search_execute_witness :
    (Search.execute emptySearchClient ⟨["hat"]⟩).2 =
      Except.ok "Sorry I couldn\x27t find any products for your search." ∧
    (Search.execute defaultSearchClient ⟨["shirt"]⟩).2 =
      Except.ok "Here are the products I found: Product 1 (ID: p1), Product 2 (ID: p2)" := by
  constructor
  · exact (search_execute_formats emptySearchClient ["hat"] [] rfl).1 rfl
  · exact ((search_execute_formats defaultSearchClient ["shirt"]
      [⟨"p1", "Product 1"⟩, ⟨"p2", "Product 2"⟩] rfl).2 rfl).1.trans (by rfl)

/-- C6: `decide_next_action` returns `None` without raising whenever the
response has no choices, a `None` or empty `tool_calls`, a tool call with
no `function` member or an empty argument string, an argument string the
JSON decoder rejects, or a function name outside the three known
variants. -/
theorem decide_no_decision_returns_none (loads : JsonLoads) (u : String)
    (hist : List ChatMsg) :
    (decide_next_action loads (fun _ => Except.ok ⟨[]⟩) u hist).2 = Except.ok none ∧
    (decide_next_action loads (fun _ => Except.ok (respWith none)) u hist).2 =
      Except.ok none ∧
    (decide_next_action loads (fun _ => Except.ok (respWith (some []))) u hist).2 =
      Except.ok none ∧
    (∀ rest, (decide_next_action loads
      (fun _ => Except.ok (respWith (some (⟨none⟩ :: rest)))) u hist).2 =
      Except.ok none) ∧
    (∀ name rest, (decide_next_action loads
      (fun _ => Except.ok (respWith (some (⟨some ⟨name, ""⟩⟩ :: rest)))) u hist).2 =
      Except.ok none) ∧
    (∀ f rest, f.arguments ≠ "" → loads f.arguments = none →
      (decide_next_action loads
        (fun _ => Except.ok (respWith (some (⟨some f⟩ :: rest)))) u hist).2 =
        Except.ok none) ∧
    (∀ f rest v, f.arguments ≠ "" → loads f.arguments = some v →
      f.name ≠ "search_products" → f.name ≠ "get_product_details" →
      f.name ≠ "clarify_request" →
      (decide_next_action loads
        (fun _ => Except.ok (respWith (some (⟨some f⟩ :: rest)))) u hist).2 =
        Except.ok none) := by
  refine ⟨rfl, rfl, rfl, fun rest => rfl, fun name rest => rfl, ?_, ?_⟩
  · intro f rest h1 h2
    simp only [decide_next_action, respWith]
    rw [if_neg h1, h2]
  · intro f rest v h1 h2 h3 h4 h5
    simp only [decide_next_action, respWith]
    rw [if_neg h1, h2]
    simp [h3, h4, h5]

/-- C6 (witness): the theorem applied to a concrete unknown action name
whose arguments decode to the empty JSON object. -/
theorem decide_no_decision_witness :
    (decide_next_action loadsFixture
      (fun _ => Except.ok (respWith (some (⟨some ⟨"unknown_action", "argsEmptyObj"⟩⟩ :: []))))
      "hi" []).2 = Except.ok none :=
  (decide_no_decision_returns_none loadsFixture "hi" []).2.2.2.2.2.2
    ⟨"unknown_action", "argsEmptyObj"⟩ [] (JsonValue.obj [])
    (by decide) rfl (by decide) (by decide) (by decide)

/-- C7: whenever the safety predicate flags the message, `run` answers the
fixed refusal string and makes no external call at all — the model
transport and both collaborator entry points are invoked zero times. -/
theorem safety_gate_short_circuits (agent : ShoppingAgent) (loads : JsonLoads)
    (oracle : Oracle) (client : SearchClient) (user_message : String)
    (conversation_history : List ChatMsg)
    (h : agent.is_intent_malicious user_message = true) :
    (agent.run loads oracle client user_message conversation_history).reply =
      Except.ok "Sorry! I cannot process this request." ∧
    (agent.run loads oracle client user_message conversation_history).trace =
      Trace.zero := by
  simp [ShoppingAgent.run, h]

/-- C7 (witness): the theorem applied to an agent whose predicate flags
everything, at a concrete message. -/
theorem safety_gate_witness :
    flaggingAgent.is_intent_malicious "steal a card number" = true ∧
    (flaggingAgent.run loadsFixture (fun _ => Except.ok (respWith none))
      defaultSearchClient "steal a card number" []).reply =
      Except.ok "Sorry! I cannot process this request." ∧
    (flaggingAgent.run loadsFixture (fun _ => Except.ok (respWith none))
      defaultSearchClient "steal a card number" []).trace = Trace.zero :=
  ⟨rfl, safety_gate_short_circuits flaggingAgent loadsFixture
    (fun _ => Except.ok (respWith none)) defaultSearchClient
    "steal a card number" [] rfl⟩

/-- C8: executing `Clarify` is the identity on the question text, and in
particular `Clarify` with question "Which color?" executes to exactly
"Which color?". -/
theorem clarify_identity :
    (∀ q : String, (Clarify.execute ⟨q⟩).2 = Except.ok q) ∧
    (Clarify.execute ⟨"Which color?"⟩).2 = Except.ok "Which color?" :=
  ⟨fun _ => rfl, rfl⟩

/-- C9: `run` never changes the contents of the caller\x27s
`conversation_history`: on every path the history after the call equals
the history passed in (the resolver assembles its own fresh message
list). -/
theorem run_preserves_history (agent : ShoppingAgent) (loads : JsonLoads)
    (oracle : Oracle) (client : SearchClient) (user_message : String)
    (conversation_history : List ChatMsg) :
    (agent.run loads oracle client user_message conversation_history).history =
      conversation_history := by
  unfold ShoppingAgent.run
  split
  · rfl
  · split
    · rfl
    · rfl
    · split
      · rfl
      · rfl

/-- C10: `decide_next_action` depends only on the first tool call of the
response: replacing everything after the first tool call changes nothing,
so at most one action value is produced per turn. -/
theorem decide_ignores_extra_tool_calls (loads : JsonLoads) (u : String)
    (hist : List ChatMsg) (tc : ToolCall) (rest rest' : List ToolCall) :
    decide_next_action loads
      (fun _ => Except.ok (respWith (some (tc :: rest)))) u hist =
    decide_next_action loads
      (fun _ => Except.ok (respWith (some (tc :: rest')))) u hist := rfl
